import Mathlib

/-!
Shallow embedding of the job-orchestration core of the ExperimentTracker
backend (FastAPI + SQLAlchemy, `src/backend`).  Python floats are modelled
as rationals (only equality tests and field copies occur in the embedded
code), `datetime.utcnow()` is an explicit `now : Nat` argument, the
SQLAlchemy session is an explicit job-list state, and the freshly drawn
`uuid.uuid4()` token is an explicit argument.
-/

set_option autoImplicit false

deriving instance DecidableEq for Except

namespace ExperimentTracker

/-- JSON-ish scalar values stored in a Job's `parameters` column and read
back with Python's `dict.get`; `vnone` covers both JSON `null` and an
absent key, exactly as Python's `d.get(k)` conflates the two. -/
inductive Value where
  | vint (i : Int)
  | vfloat (q : Rat)
  | vstr (s : String)
  | vbool (b : Bool)
  | vnone
deriving DecidableEq, Repr

/-- Python's `d.get(k)`: the value of the first binding of `k`, `None` when
the key is absent. -/
def pyGet (d : List (String × Value)) (k : String) : Value :=
  match d.find? (fun p => p.1 = k) with
  | some p => p.2
  | none => Value.vnone

/-- Embedding of `Value.vnone` for an optional Python field. -/
def optVal {α : Type} (f : α → Value) : Option α → Value
  | some a => f a
  | none => Value.vnone

/-- Pydantic model `JobParameters` (schemas.py lines 22-33): every field has
a default, the `Optional` ones may also be explicitly null. -/
structure JobParameters where
  model_type : String
  epochs : Int
  batch_size : Int
  learning_rate : Rat
  optimizer : String
  momentum : Option Rat
  dropout_rate : Option Rat
  hidden_size : Option Int
  kernel_size : Option Int
  num_layers : Option Int
  use_scheduler : Option Bool
deriving DecidableEq, Repr

/-- Embedding of `JobParameters.dict()`: the flat mapping persisted in the
Job row and passed to the background task. -/
def JobParameters.dict (p : JobParameters) : List (String × Value) :=
  [ ("model_type", Value.vstr p.model_type)
  , ("epochs", Value.vint p.epochs)
  , ("batch_size", Value.vint p.batch_size)
  , ("learning_rate", Value.vfloat p.learning_rate)
  , ("optimizer", Value.vstr p.optimizer)
  , ("momentum", optVal Value.vfloat p.momentum)
  , ("dropout_rate", optVal Value.vfloat p.dropout_rate)
  , ("hidden_size", optVal Value.vint p.hidden_size)
  , ("kernel_size", optVal Value.vint p.kernel_size)
  , ("num_layers", optVal Value.vint p.num_layers)
  , ("use_scheduler", optVal Value.vbool p.use_scheduler) ]

/-- Request schema `JobCreate` (schemas.py lines 35-41). -/
structure JobCreate where
  name : String
  model_type : String
  parameters : JobParameters
  experiment_id : Int
deriving DecidableEq, Repr

/-- Per-series training history, a JSON mapping from series name to the
per-epoch floats (`Dict[str, List[float]]`). -/
abbrev History : Type := List (String × List Rat)

/-- Fields the status callback reads out of a terminal `final_results`
payload via `.get` (training.py lines 37-43); an absent key reads as null. -/
structure Results where
  best_accuracy : Option Rat
  total_time : Option Rat
  history : Option History
deriving DecidableEq

/-- Progress / terminal event payload handled by
`training_status_callback`; only the keys the callback inspects are kept.
`epoch = none` models the `"epoch"` key being absent, `final_results =
none` models the `"final_results"` key being absent. -/
structure Event where
  job_id : String
  status : Option String
  epoch : Option Int
  final_results : Option Results
  error : Option String
deriving DecidableEq

/-- SQLAlchemy `Job` row (app/models/job.py, app/database.py).  The
surrogate integer primary key is irrelevant to the embedded logic and is
omitted; `job_id` is the externally visible token. -/
structure Job where
  job_id : String
  experiment_id : Int
  name : String
  status : String
  model_type : String
  parameters : List (String × Value)
  best_accuracy : Option Rat
  total_time : Option Rat
  epochs_completed : Int
  history : Option History
  created_at : Option Nat
  started_at : Option Nat
  completed_at : Option Nat
deriving DecidableEq

/-- The jobs table in store iteration order. -/
abbrev Store : Type := List Job

/-- Embedding of `db.query(Job).filter(Job.job_id == job_id).first()`. -/
def lookupJob (σ : Store) (jobId : String) : Option Job :=
  List.find? (fun j => j.job_id = jobId) σ

/-- Mutating the row returned by a `.first()` lookup and committing:
rewrite the first job carrying the token, leave the rest alone. -/
def updateFirstJob (σ : Store) (jobId : String) (f : Job → Job) : Store :=
  match σ with
  | [] => []
  | j :: rest =>
    if j.job_id = jobId then f j :: rest
    else j :: updateFirstJob rest jobId f

/-- Core-parameter comparison of `_find_duplicate_job`
(job_service.py lines 86-91): optimizer, learning_rate, batch_size and
epochs must agree between the stored dict and the incoming dict. -/
def coreMatch (e jp : List (String × Value)) : Bool :=
  decide (pyGet e "optimizer" = pyGet jp "optimizer")
  && decide (pyGet e "learning_rate" = pyGet jp "learning_rate")
  && decide (pyGet e "batch_size" = pyGet jp "batch_size")
  && decide (pyGet e "epochs" = pyGet jp "epochs")

/-- Model-kind-specific comparison of `_find_duplicate_job`
(job_service.py lines 96-107): starts at False, set only for the `mlp`
and `cnn` branches, so any other kind never matches. -/
def specificMatch (modelType : String) (e jp : List (String × Value)) : Bool :=
  if modelType = "mlp" then
    decide (pyGet e "hidden_size" = pyGet jp "hidden_size")
    && decide (pyGet e "dropout_rate" = pyGet jp "dropout_rate")
    && decide (pyGet e "num_layers" = pyGet jp "num_layers")
  else if modelType = "cnn" then
    decide (pyGet e "kernel_size" = pyGet jp "kernel_size")
  else
    false

/-- Candidate restriction of `_find_duplicate_job` (job_service.py lines
75-78): same experiment and same model kind. -/
def candPred (job : JobCreate) (e : Job) : Bool :=
  decide (e.experiment_id = job.experiment_id)
  && decide (e.model_type = job.model_type)

/-- Full equivalence test applied to each candidate (job_service.py line
109): core and model-kind-specific parameters both match. -/
def dupPred (job : JobCreate) (e : Job) : Bool :=
  coreMatch e.parameters job.parameters.dict
  && specificMatch job.model_type e.parameters job.parameters.dict

/-- Embedding of `JobService._find_duplicate_job`: restrict to jobs of the
same experiment and model kind, return the first whose core and specific
parameters both match. -/
def findDuplicateJob (σ : Store) (job : JobCreate) : Option Job :=
  (List.filter (candPred job) σ).find? (dupPred job)

/-- Arguments handed to `background_tasks.add_task(run_training_job, ...)`
(job_service.py lines 39-44): evidence that exactly this Execution Unit
was launched. -/
structure LaunchTask where
  job_id : String
  model_type : String
  parameters : List (String × Value)
deriving DecidableEq

/-- Request-path failures of the submit endpoint. -/
inductive CreateError where
  | notFound
deriving DecidableEq

/-- The pending row the dispatcher persists for a fresh (non-duplicate)
submission (job_service.py lines 25-37): uuid token, pending status,
column defaults for every result field. -/
def freshJob (req : JobCreate) (freshToken : String) (now : Nat) : Job :=
  { job_id := freshToken
  , experiment_id := req.experiment_id
  , name := req.name
  , status := "pending"
  , model_type := req.model_type
  , parameters := req.parameters.dict
  , best_accuracy := none
  , total_time := none
  , epochs_completed := 0
  , history := none
  , created_at := some now
  , started_at := none
  , completed_at := none }

/-- Embedding of `JobService.create_job` (job_service.py lines 15-46),
behaviourally identical to the inline `create_job` route of main.py lines
183-277 (which only adds logging): check the experiment exists, return a
duplicate untouched, otherwise persist a fresh pending row and launch one
background Execution Unit.  `experiments` is the set of existing
experiment ids, `freshToken` the drawn uuid, `now` the creation clock. -/
def createJob (σ : Store) (experiments : List Int) (req : JobCreate)
    (freshToken : String) (now : Nat) :
    Except CreateError (Job × Store × Option LaunchTask) :=
  if req.experiment_id ∈ experiments then
    match findDuplicateJob σ req with
    | some e => Except.ok (e, σ, none)
    | none =>
      let j := freshJob req freshToken now
      Except.ok (j, σ ++ [j], some ⟨freshToken, req.model_type, req.parameters.dict⟩)
  else
    Except.error CreateError.notFound

/-- Request-path failures of the cancel endpoint. -/
inductive CancelError where
  | notFound
  | invalidState
deriving DecidableEq

/-- Embedding of `JobService.cancel_job` (job_service.py lines 65-72): a
job not in pending/running is rejected with HTTP 400 before any mutation;
otherwise its status becomes cancelled and `completed_at` is stamped.  The
returned store is the database after the call (unchanged on error). -/
def cancelJob (σ : Store) (jobId : String) (now : Nat) :
    Store × Option CancelError :=
  match lookupJob σ jobId with
  | none => (σ, some CancelError.notFound)
  | some job =>
    if job.status = "pending" ∨ job.status = "running" then
      (updateFirstJob σ jobId
        (fun j => { j with status := "cancelled", completed_at := some now }), none)
    else
      (σ, some CancelError.invalidState)

/-- Embedding of the inline `cancel_job` route of main.py lines 312-326:
the same guard, but the accepted branch writes status `"failed"` (main.py
line 322) while answering `"Job cancelled successfully"`. -/
def mainCancelJob (σ : Store) (jobId : String) (now : Nat) :
    Store × Option CancelError :=
  match lookupJob σ jobId with
  | none => (σ, some CancelError.notFound)
  | some job =>
    if job.status = "pending" ∨ job.status = "running" then
      (updateFirstJob σ jobId
        (fun j => { j with status := "failed", completed_at := some now }), none)
    else
      (σ, some CancelError.invalidState)

/-- Embedding of `JobService.get_jobs` (job_service.py lines 48-52) and
the `read_jobs` route: Python's `if experiment_id:` is truthiness, so both
`None` and `0` skip the filter. -/
def getJobs (σ : Store) (experimentId : Option Int) (skip limit : Nat) :
    List Job :=
  let query :=
    match experimentId with
    | none => σ
    | some i =>
      if i = 0 then σ
      else List.filter (fun j => decide (j.experiment_id = i)) σ
  (query.drop skip).take limit

/-- Row mutation performed by `update_job_in_db` inside
`training_status_callback` (training.py lines 27-48) on the job it looked
up: copy `epoch` into `epochs_completed` when the key is present; on a
completed event carrying `final_results` set status/completed_at and copy
the result fields; on a failed event set status/completed_at only. -/
def applyEvent (e : Event) (now : Nat) (j : Job) : Job :=
  let j1 :=
    match e.epoch with
    | some n => { j with epochs_completed := n }
    | none => j
  if e.status = some "completed" then
    match e.final_results with
    | some r =>
      { j1 with status := "completed"
              , completed_at := some now
              , best_accuracy := r.best_accuracy
              , total_time := r.total_time
              , history := r.history }
    | none => j1
  else if e.status = some "failed" then
    { j1 with status := "failed", completed_at := some now }
  else
    j1

/-- Embedding of `update_job_in_db`: look the job up by the event's
`job_id`, return silently when absent, otherwise mutate that row and
commit. -/
def updateJobInDb (σ : Store) (e : Event) (now : Nat) : Store :=
  match lookupJob σ e.job_id with
  | none => σ
  | some _ => updateFirstJob σ e.job_id (applyEvent e now)

/-- Behaviour of one run of the opaque trainable unit as observed by
`run_training_job`: the events it pushed through the status callback, in
emission order, and (when it escaped with an uncaught exception) the
exception text that reaches the `except` clause. -/
structure TrainOutcome where
  events : List Event
  raised : Option String
deriving DecidableEq

/-- The failure payload `run_training_job` synthesizes in its `except`
clause (training.py lines 80-86) when the trainable unit escaped with an
uncaught exception. -/
def syntheticFailure (jobId : String) (err : String) : Event :=
  { job_id := jobId, status := some "failed", epoch := none
  , final_results := none, error := some err }

/-- Embedding of `run_training_job` (training.py lines 55-89): stamp the
job running/started_at whenever the row exists (no guard on its current
status), process every emitted event through the status pipeline, and on
an uncaught exception synthesize a failure event for the same token and
process it too. -/
def runTrainingJob (σ : Store) (jobId : String) (outcome : TrainOutcome)
    (now : Nat) : Store :=
  let σ1 :=
    match lookupJob σ jobId with
    | none => σ
    | some _ =>
      updateFirstJob σ jobId
        (fun j => { j with status := "running", started_at := some now })
  let σ2 := outcome.events.foldl (fun s e => updateJobInDb s e now) σ1
  match outcome.raised with
  | some err => updateJobInDb σ2 (syntheticFailure jobId err) now
  | none => σ2

/-- Lower-casing as applied by `model_type.lower()`; ASCII-level lowering
suffices because the dispatch only compares against ASCII literals. -/
def pyLower (s : String) : String :=
  String.mk (s.data.map Char.toLower)

/-- Dispatch test of `create_model` (mnist_models.py lines 79-96): true
exactly for the lower-cased kinds it constructs, false when it raises
`ValueError`. -/
def createModelOk (modelType : String) : Bool :=
  decide (pyLower modelType = "cnn")
  || decide (pyLower modelType = "nn")
  || decide (pyLower modelType = "mlp")
  || decide (pyLower modelType = "rnn")

/-- Observer connection: `ok` tells whether `websocket.send_json` succeeds
(raises when false), `inbox` records the payloads delivered so far. -/
structure Conn where
  ok : Bool
  inbox : List (String × Event)
deriving DecidableEq

/-- Connection registry `ws_connections`, a dict from client id to socket
in insertion order. -/
abbrev Registry : Type := List (String × Conn)

/-- Embedding of `send_ws_update` (training.py lines 12-22): try the send
on every registered connection, collecting the clients whose send raised,
then delete exactly those clients from the registry. -/
def sendWsUpdate (jobId : String) (data : Event) (reg : Registry) : Registry :=
  let afterSend := reg.map
    (fun p =>
      if p.2.ok then (p.1, { p.2 with inbox := p.2.inbox ++ [(jobId, data)] })
      else p)
  let disconnected := (List.filter (fun p => !p.2.ok) reg).map Prod.fst
  List.filter (fun p => decide (p.1 ∉ disconnected)) afterSend

/-! Concrete sample data used by witnesses and counterexamples. -/

/-- Sample hyperparameter record for a cnn submission (whole-number
rationals keep kernel evaluation cheap). -/
def sampleParams : JobParameters :=
  { model_type := "cnn", epochs := 1, batch_size := 64, learning_rate := 1
  , optimizer := "sgd", momentum := some 1, dropout_rate := some 1
  , hidden_size := some 128, kernel_size := some 3, num_layers := some 2
  , use_scheduler := some false }

/-- Sample submission request against experiment 1. -/
def sampleReq : JobCreate :=
  { name := "jobA", model_type := "cnn", parameters := sampleParams
  , experiment_id := 1 }

/-- The pending row the dispatcher persists for `sampleReq` with token
tok1 at time 0. -/
def jobA : Job :=
  { job_id := "tok1", experiment_id := 1, name := "jobA", status := "pending"
  , model_type := "cnn", parameters := sampleParams.dict, best_accuracy := none
  , total_time := none, epochs_completed := 0, history := none
  , created_at := some 0, started_at := none, completed_at := none }

/-- The same row after a cancellation landed while it was pending. -/
def cancelledJob : Job := { jobA with status := "cancelled" }

/-- The same row in the completed terminal state. -/
def doneJob : Job := { jobA with status := "completed" }

/-- A second job row that belongs to experiment 2. -/
def jobB2 : Job := { jobA with experiment_id := 2, job_id := "tok2" }

/-- The same row in the failed terminal state. -/
def failedJob : Job := { jobA with status := "failed" }

/-- The sample submission resubmitted as an rnn job. -/
def rnnReq : JobCreate := { sampleReq with model_type := "rnn" }

/-- A submission whose model kind lies outside the closed enumeration. -/
def transformerReq : JobCreate := { sampleReq with model_type := "transformer" }

/-- A running job that already carries result values from an earlier
lifecycle, to observe the frame condition of a failing run. -/
def resultJob : Job :=
  { jobA with
      status := "running"
      best_accuracy := some 50
      total_time := some 2
      history := some [("val_accuracy", [1])] }

/-- An observer connection whose sends succeed. -/
def connA : Conn := { ok := true, inbox := [] }

/-- An observer connection whose sends raise. -/
def connB : Conn := { ok := false, inbox := [] }

/-- A progress event broadcast to the registry. -/
def pingEvent : Event :=
  { job_id := "tok1", status := some "running", epoch := some 1
  , final_results := none, error := none }

/-! Helper lemmas about the embedded operations. -/

theorem pyGet_dict_optimizer (p : JobParameters) :
    pyGet p.dict "optimizer" = Value.vstr p.optimizer := rfl

theorem pyGet_dict_learning_rate (p : JobParameters) :
    pyGet p.dict "learning_rate" = Value.vfloat p.learning_rate := rfl

theorem pyGet_dict_batch_size (p : JobParameters) :
    pyGet p.dict "batch_size" = Value.vint p.batch_size := rfl

theorem pyGet_dict_epochs (p : JobParameters) :
    pyGet p.dict "epochs" = Value.vint p.epochs := rfl

theorem pyGet_dict_hidden_size (p : JobParameters) :
    pyGet p.dict "hidden_size" = optVal Value.vint p.hidden_size := rfl

theorem pyGet_dict_dropout_rate (p : JobParameters) :
    pyGet p.dict "dropout_rate" = optVal Value.vfloat p.dropout_rate := rfl

theorem pyGet_dict_num_layers (p : JobParameters) :
    pyGet p.dict "num_layers" = optVal Value.vint p.num_layers := rfl

theorem pyGet_dict_kernel_size (p : JobParameters) :
    pyGet p.dict "kernel_size" = optVal Value.vint p.kernel_size := rfl

theorem find?_append_of_none {α : Type} {p : α → Bool} {l1 l2 : List α}
    (h : l1.find? p = none) : (l1 ++ l2).find? p = l2.find? p := by
  induction l1 with
  | nil => rfl
  | cons a t ih =>
    rw [List.find?_cons] at h
    cases hpa : p a with
    | true => rw [hpa] at h; exact absurd h (by simp)
    | false =>
      rw [hpa] at h
      rw [List.cons_append, List.find?_cons, hpa]
      exact ih h

theorem findDuplicateJob_congr (σ : Store) (s1 s2 : JobCreate)
    (hc : ∀ e, candPred s2 e = candPred s1 e)
    (hd : ∀ e, dupPred s2 e = dupPred s1 e) :
    findDuplicateJob σ s2 = findDuplicateJob σ s1 := by
  unfold findDuplicateJob
  rw [funext hc, funext hd]

theorem specificMatch_other {mt : String} (h1 : mt ≠ "mlp") (h2 : mt ≠ "cnn")
    (e jp : List (String × Value)) : specificMatch mt e jp = false := by
  unfold specificMatch
  rw [if_neg h1, if_neg h2]

theorem findDuplicateJob_none_of_other (σ : Store) (s : JobCreate)
    (h1 : s.model_type ≠ "mlp") (h2 : s.model_type ≠ "cnn") :
    findDuplicateJob σ s = none := by
  apply List.find?_eq_none.mpr
  intro e _
  unfold dupPred
  rw [specificMatch_other h1 h2, Bool.and_false]
  simp

theorem lookupJob_updateFirstJob_self (σ : Store) (t : String) (f : Job → Job)
    (hf : ∀ j, (f j).job_id = j.job_id) :
    lookupJob (updateFirstJob σ t f) t = (lookupJob σ t).map f := by
  induction σ with
  | nil => rfl
  | cons j rest ih =>
    by_cases hj : j.job_id = t
    · unfold updateFirstJob lookupJob
      rw [if_pos hj, List.find?_cons, List.find?_cons]
      have h1 : (decide (j.job_id = t)) = true := decide_eq_true hj
      have h2 : (decide ((f j).job_id = t)) = true := decide_eq_true (by rw [hf]; exact hj)
      rw [h1, h2]
      rfl
    · unfold updateFirstJob lookupJob
      rw [if_neg hj, List.find?_cons, List.find?_cons]
      have h1 : (decide (j.job_id = t)) = false := decide_eq_false hj
      rw [h1]
      exact ih

theorem lookupJob_updateFirstJob_other (σ : Store) (u t : String) (f : Job → Job)
    (hf : ∀ j, (f j).job_id = j.job_id) (hne : u ≠ t) :
    lookupJob (updateFirstJob σ u f) t = lookupJob σ t := by
  induction σ with
  | nil => rfl
  | cons j rest ih =>
    by_cases hj : j.job_id = u
    · unfold updateFirstJob lookupJob
      rw [if_pos hj, List.find?_cons, List.find?_cons]
      have h2 : (decide ((f j).job_id = t)) = false := by
        apply decide_eq_false
        rw [hf, hj]
        exact hne
      have h1 : (decide (j.job_id = t)) = false := by
        apply decide_eq_false
        rw [hj]
        exact hne
      rw [h1, h2]
    · unfold updateFirstJob lookupJob
      rw [if_neg hj, List.find?_cons, List.find?_cons]
      cases hd : decide (j.job_id = t) with
      | true => rfl
      | false => exact ih

theorem applyEvent_job_id (e : Event) (now : Nat) (j : Job) :
    (applyEvent e now j).job_id = j.job_id := by
  unfold applyEvent
  cases e.epoch <;> by_cases hc : e.status = some "completed" <;>
    cases hr : e.final_results <;> by_cases hfl : e.status = some "failed" <;>
    simp [hc, hr, hfl]

theorem lookupJob_updateJobInDb_self (σ : Store) (e : Event) (now : Nat) :
    lookupJob (updateJobInDb σ e now) e.job_id =
      (lookupJob σ e.job_id).map (applyEvent e now) := by
  unfold updateJobInDb
  cases h : lookupJob σ e.job_id with
  | none =>
    show lookupJob σ e.job_id = Option.map (applyEvent e now) none
    rw [h]
    rfl
  | some j =>
    show lookupJob (updateFirstJob σ e.job_id (applyEvent e now)) e.job_id =
      Option.map (applyEvent e now) (some j)
    rw [lookupJob_updateFirstJob_self σ e.job_id _ (applyEvent_job_id e now), h]

theorem lookupJob_updateJobInDb_other (σ : Store) (e : Event) (now : Nat)
    (t : String) (hne : e.job_id ≠ t) :
    lookupJob (updateJobInDb σ e now) t = lookupJob σ t := by
  unfold updateJobInDb
  cases h : lookupJob σ e.job_id with
  | none => rfl
  | some j =>
    exact lookupJob_updateFirstJob_other σ e.job_id t _ (applyEvent_job_id e now) hne

theorem applyEvent_preserves_results (e : Event) (now : Nat) (j : Job)
    (h : ¬(e.status = some "completed" ∧ e.final_results.isSome = true)) :
    (applyEvent e now j).best_accuracy = j.best_accuracy ∧
    (applyEvent e now j).total_time = j.total_time ∧
    (applyEvent e now j).history = j.history := by
  unfold applyEvent
  by_cases hc : e.status = some "completed"
  · have hfr : e.final_results = none := by
      cases hfr : e.final_results with
      | none => rfl
      | some r => exact absurd ⟨hc, by rw [hfr]; rfl⟩ h
    cases e.epoch <;> simp [hc, hfr]
  · by_cases hfl : e.status = some "failed" <;>
      cases hr : e.final_results <;> cases e.epoch <;> simp [hc, hfl, hr]

theorem applyEvent_failed (e : Event) (now : Nat) (j : Job)
    (hfl : e.status = some "failed") :
    (applyEvent e now j).status = "failed" ∧
    (applyEvent e now j).completed_at = some now := by
  have hc : ¬ e.status = some "completed" := by rw [hfl]; simp
  unfold applyEvent
  cases e.epoch <;> simp [hc, hfl]

theorem fold_events_preserve (t : String) (now : Nat) :
    ∀ (evs : List Event) (σ : Store) (j : Job),
      lookupJob σ t = some j →
      (∀ e ∈ evs, e.job_id = t → ¬(e.status = some "completed" ∧ e.final_results.isSome = true)) →
      ∃ j2, lookupJob (evs.foldl (fun s e => updateJobInDb s e now) σ) t = some j2 ∧
        j2.best_accuracy = j.best_accuracy ∧ j2.total_time = j.total_time ∧
        j2.history = j.history := by
  intro evs
  induction evs with
  | nil =>
    intro σ j hj _
    exact ⟨j, hj, rfl, rfl, rfl⟩
  | cons e rest ih =>
    intro σ j hj hpre
    rw [List.foldl_cons]
    by_cases he : e.job_id = t
    · have hlook : lookupJob (updateJobInDb σ e now) t = some (applyEvent e now j) := by
        rw [← he, lookupJob_updateJobInDb_self, he, hj]
        rfl
      have hres := applyEvent_preserves_results e now j
        (hpre e (List.mem_cons_self e rest) he)
      obtain ⟨j2, hj2, hb, ht2, hh⟩ := ih (updateJobInDb σ e now) (applyEvent e now j)
        hlook (fun x hx => hpre x (List.mem_cons_of_mem e hx))
      exact ⟨j2, hj2, by rw [hb, hres.1], by rw [ht2, hres.2.1], by rw [hh, hres.2.2]⟩
    · have hlook : lookupJob (updateJobInDb σ e now) t = some j := by
        rw [lookupJob_updateJobInDb_other σ e now t he, hj]
      exact ih (updateJobInDb σ e now) j hlook
        (fun x hx => hpre x (List.mem_cons_of_mem e hx))

theorem process_events_then_failure (σ1 : Store) (t : String) (jr : Job)
    (evs : List Event) (fe : Event) (now : Nat)
    (hlook : lookupJob σ1 t = some jr)
    (hpre : ∀ e ∈ evs, e.job_id = t →
      ¬(e.status = some "completed" ∧ e.final_results.isSome = true))
    (hfe1 : fe.job_id = t) (hfe2 : fe.status = some "failed") :
    ∃ j2, lookupJob (updateJobInDb
        (evs.foldl (fun s e => updateJobInDb s e now) σ1) fe now) t =
        some j2 ∧
      j2.status = "failed" ∧ j2.completed_at = some now ∧
      j2.best_accuracy = jr.best_accuracy ∧ j2.total_time = jr.total_time ∧
      j2.history = jr.history := by
  obtain ⟨jm, hjm, hb, ht2, hh⟩ := fold_events_preserve t now evs σ1 jr
    hlook hpre
  have hfin := lookupJob_updateJobInDb_self
    (evs.foldl (fun s e => updateJobInDb s e now) σ1) fe now
  rw [hfe1, hjm] at hfin
  have hnc : ¬(fe.status = some "completed" ∧ fe.final_results.isSome = true) := by
    intro hcon
    rw [hfe2] at hcon
    exact absurd hcon.1 (by decide)
  have hres := applyEvent_preserves_results fe now jm hnc
  have hterm := applyEvent_failed fe now jm hfe2
  exact ⟨applyEvent fe now jm, hfin, hterm.1, hterm.2,
    hres.1.trans hb, hres.2.1.trans ht2, hres.2.2.trans hh⟩

theorem nodup_keys_unique {reg : Registry} (h : (reg.map Prod.fst).Nodup)
    {cid : String} {c c2 : Conn} (h1 : (cid, c) ∈ reg) (h2 : (cid, c2) ∈ reg) :
    c = c2 := by
  induction reg with
  | nil => cases h1
  | cons p rest ih =>
    rw [List.map_cons, List.nodup_cons] at h
    rcases List.mem_cons.mp h1 with hc1 | hc1 <;>
      rcases List.mem_cons.mp h2 with hc2 | hc2
    · rw [← hc2] at hc1
      exact congrArg Prod.snd hc1
    · exfalso
      apply h.1
      rw [← hc1]
      exact List.mem_map.mpr ⟨(cid, c2), hc2, rfl⟩
    · exfalso
      apply h.1
      rw [← hc2]
      exact List.mem_map.mpr ⟨(cid, c), hc1, rfl⟩
    · exact ih h.2 hc1 hc2

theorem lookupJob_none (σ : Store) (t : String) (h : ∀ j ∈ σ, j.job_id ≠ t) :
    lookupJob σ t = none := by
  apply List.find?_eq_none.mpr
  intro j hj
  simp [h j hj]

theorem lookupJob_append_last (σ : Store) (j : Job) (t : String)
    (hnone : lookupJob σ t = none) (hj : j.job_id = t) :
    lookupJob (σ ++ [j]) t = some j := by
  unfold lookupJob at hnone ⊢
  rw [find?_append_of_none hnone]
  simp [List.find?, hj]

theorem createJob_dup (σ : Store) (exps : List Int) (req : JobCreate)
    (tok : String) (now : Nat) (e : Job) (hexp : req.experiment_id ∈ exps)
    (hfd : findDuplicateJob σ req = some e) :
    createJob σ exps req tok now = Except.ok (e, σ, none) := by
  unfold createJob
  rw [if_pos hexp]
  simp only [hfd]

theorem createJob_new (σ : Store) (exps : List Int) (req : JobCreate)
    (tok : String) (now : Nat) (hexp : req.experiment_id ∈ exps)
    (hfd : findDuplicateJob σ req = none) :
    createJob σ exps req tok now =
      Except.ok (freshJob req tok now, σ ++ [freshJob req tok now],
        some ⟨tok, req.model_type, req.parameters.dict⟩) := by
  unfold createJob
  rw [if_pos hexp]
  simp only [hfd]

theorem coreMatch_dict_congr (d : List (String × Value)) (p1 p2 : JobParameters)
    (hopt : p2.optimizer = p1.optimizer)
    (hlr : p2.learning_rate = p1.learning_rate)
    (hbs : p2.batch_size = p1.batch_size)
    (hep : p2.epochs = p1.epochs) :
    coreMatch d p2.dict = coreMatch d p1.dict := by
  simp only [coreMatch, pyGet_dict_optimizer, pyGet_dict_learning_rate,
    pyGet_dict_batch_size, pyGet_dict_epochs, hopt, hlr, hbs, hep]

theorem specificMatch_dict_congr (mt : String) (d : List (String × Value))
    (p1 p2 : JobParameters)
    (hhs : mt = "mlp" → p2.hidden_size = p1.hidden_size)
    (hdr : mt = "mlp" → p2.dropout_rate = p1.dropout_rate)
    (hnl : mt = "mlp" → p2.num_layers = p1.num_layers)
    (hks : mt = "cnn" → p2.kernel_size = p1.kernel_size) :
    specificMatch mt d p2.dict = specificMatch mt d p1.dict := by
  unfold specificMatch
  by_cases h1 : mt = "mlp"
  · rw [if_pos h1, if_pos h1]
    simp only [pyGet_dict_hidden_size, pyGet_dict_dropout_rate,
      pyGet_dict_num_layers, hhs h1, hdr h1, hnl h1]
  · rw [if_neg h1, if_neg h1]
    by_cases h2 : mt = "cnn"
    · rw [if_pos h2, if_pos h2]
      simp only [pyGet_dict_kernel_size, hks h2]
    · rw [if_neg h2, if_neg h2]

theorem candPred_congr_of_eq (s1 s2 : JobCreate)
    (heid : s2.experiment_id = s1.experiment_id)
    (hmt : s2.model_type = s1.model_type) :
    ∀ e, candPred s2 e = candPred s1 e := by
  intro e
  unfold candPred
  rw [heid, hmt]

theorem dupPred_congr_of_eq (s1 s2 : JobCreate)
    (hmt : s2.model_type = s1.model_type)
    (hopt : s2.parameters.optimizer = s1.parameters.optimizer)
    (hlr : s2.parameters.learning_rate = s1.parameters.learning_rate)
    (hbs : s2.parameters.batch_size = s1.parameters.batch_size)
    (hep : s2.parameters.epochs = s1.parameters.epochs)
    (hhs : s1.model_type = "mlp" →
      s2.parameters.hidden_size = s1.parameters.hidden_size)
    (hdr : s1.model_type = "mlp" →
      s2.parameters.dropout_rate = s1.parameters.dropout_rate)
    (hnl : s1.model_type = "mlp" →
      s2.parameters.num_layers = s1.parameters.num_layers)
    (hks : s1.model_type = "cnn" →
      s2.parameters.kernel_size = s1.parameters.kernel_size) :
    ∀ e, dupPred s2 e = dupPred s1 e := by
  intro e
  unfold dupPred
  rw [hmt]
  rw [coreMatch_dict_congr e.parameters s1.parameters s2.parameters
    hopt hlr hbs hep]
  rw [specificMatch_dict_congr s1.model_type e.parameters s1.parameters
    s2.parameters hhs hdr hnl hks]

theorem candPred_fresh (s : JobCreate) (tok : String) (now : Nat) :
    candPred s (freshJob s tok now) = true := by
  simp [candPred, freshJob]

theorem dupPred_fresh (s : JobCreate)
    (hm : s.model_type = "mlp" ∨ s.model_type = "cnn") (tok : String)
    (now : Nat) : dupPred s (freshJob s tok now) = true := by
  have hpar : (freshJob s tok now).parameters = s.parameters.dict := rfl
  unfold dupPred
  rw [hpar]
  rcases hm with h | h <;> rw [h] <;> simp [coreMatch, specificMatch]

/-! Claim theorems. -/

/-- C1 counterexample: a Job in the terminal state cancelled has its
status changed to running by the launch of its Execution Unit
(`run_training_job` stamps running without checking the current status),
refuting the claim that no subsequent operation moves a terminal Job to
another state. -/
theorem launch_overwrites_cancelled_cex :
    cancelledJob.status = "cancelled" ∧
    (runTrainingJob [cancelledJob] "tok1" ⟨[], none⟩ 9).map Job.status =
      ["running"] := by decide

/-- C1 amended: status is not guarded on the execution path — launching an
Execution Unit sets the Job's status to running and stamps `started_at`
whenever the row exists, regardless of its current status (terminal states
included); only the cancel endpoints check the current status. -/
theorem launch_sets_running_unconditionally (σ : Store) (t : String)
    (j : Job) (now : Nat) (h : lookupJob σ t = some j) :
    lookupJob (runTrainingJob σ t ⟨[], none⟩ now) t =
      some { j with status := "running", started_at := some now } := by
  unfold runTrainingJob
  simp only [h]
  rw [List.foldl_nil]
  rw [lookupJob_updateFirstJob_self σ t
    (fun j => { j with status := "running", started_at := some now })
    (fun x => rfl), h]
  rfl

/-- Witness for the amended C1 theorem at the cancelled sample job. -/
theorem launch_sets_running_unconditionally_witness :
    lookupJob [cancelledJob] "tok1" = some cancelledJob ∧
    lookupJob (runTrainingJob [cancelledJob] "tok1" ⟨[], none⟩ 9) "tok1" =
      some { cancelledJob with status := "running", started_at := some 9 } :=
  ⟨by decide,
    launch_sets_running_unconditionally [cancelledJob] "tok1" cancelledJob 9
      (by decide)⟩

/-- C2: evaluating the wired cancel route (main.py lines 312-326) on a
pending job: it accepts the request but writes status failed — while the
service-layer `JobService.cancel_job` writes cancelled as the claim
states.  The route contradicts its own `"Job cancelled successfully"`
response, so the claim is right and main.py line 322 is the slip. -/
theorem cancel_route_marks_failed_bug :
    jobA.status = "pending" ∧
    (mainCancelJob [jobA] "tok1" 7).1.map Job.status = ["failed"] ∧
    (mainCancelJob [jobA] "tok1" 7).2 = none ∧
    (cancelJob [jobA] "tok1" 7).1.map Job.status = ["cancelled"] ∧
    (cancelJob [jobA] "tok1" 7).1.map Job.completed_at = [some 7] := by decide

/-- C6: a cancel request against a Job already in a terminal state is
rejected with InvalidState by both the service layer and the inline route,
and the store is returned unchanged — no field of any Job is mutated. -/
theorem cancel_terminal_invalid_state (σ : Store) (t : String) (j : Job)
    (now : Nat) (hlook : lookupJob σ t = some j)
    (hterm : j.status = "completed" ∨ j.status = "failed" ∨
      j.status = "cancelled") :
    cancelJob σ t now = (σ, some CancelError.invalidState) ∧
    mainCancelJob σ t now = (σ, some CancelError.invalidState) := by
  have hng : ¬(j.status = "pending" ∨ j.status = "running") := by
    rcases hterm with h | h | h <;> rw [h] <;> decide
  refine ⟨?_, ?_⟩
  · unfold cancelJob
    simp only [hlook]
    rw [if_neg hng]
  · unfold mainCancelJob
    simp only [hlook]
    rw [if_neg hng]

/-- Witness for C6 at a completed sample job. -/
theorem cancel_terminal_invalid_state_witness :
    lookupJob [doneJob] "tok1" = some doneJob ∧
    (doneJob.status = "completed" ∨ doneJob.status = "failed" ∨
      doneJob.status = "cancelled") ∧
    cancelJob [doneJob] "tok1" 7 = ([doneJob], some CancelError.invalidState) :=
  ⟨by decide, by decide,
    (cancel_terminal_invalid_state [doneJob] "tok1" doneJob 7 (by decide)
      (by decide)).1⟩

/-- C10: listing with experiment_id 0 or with no experiment_id applies no
filter (Python truthiness treats both as false) and pages over all jobs,
while any nonzero experiment_id restricts the result to that experiment's
jobs. -/
theorem list_jobs_experiment_filter (σ : Store) (skip limit : Nat) (i : Int)
    (hi : i ≠ 0) :
    getJobs σ (some 0) skip limit = (σ.drop skip).take limit ∧
    getJobs σ none skip limit = (σ.drop skip).take limit ∧
    getJobs σ (some i) skip limit =
      ((List.filter (fun j => decide (j.experiment_id = i)) σ).drop
        skip).take limit ∧
    ∀ j ∈ getJobs σ (some i) skip limit, j.experiment_id = i := by
  refine ⟨rfl, rfl, ?_, ?_⟩
  · simp only [getJobs]
    rw [if_neg hi]
  · intro j hj
    simp only [getJobs] at hj
    rw [if_neg hi] at hj
    have h1 := List.take_subset _ _ hj
    have h2 := List.drop_subset _ _ h1
    exact of_decide_eq_true (List.mem_filter.mp h2).2

/-- Witness for C10 at a two-experiment store and the nonzero filter 2. -/
theorem list_jobs_experiment_filter_witness :
    ((2 : Int) ≠ 0) ∧
    getJobs [jobA, jobB2] (some 2) 0 100 =
      ((List.filter (fun j => decide (j.experiment_id = 2))
        [jobA, jobB2]).drop 0).take 100 :=
  ⟨by decide, (list_jobs_experiment_filter [jobA, jobB2] 0 100 2
    (by decide)).2.2.1⟩

/-- C5: an rnn submission is judged equivalent to no existing Job
whatever the store holds (the specific-parameter branch leaves the match
flag False for rnn), so every rnn submission to an existing experiment
persists a fresh distinct Job and launches its Execution Unit. -/
theorem rnn_submission_never_duplicate (σ : Store) (exps : List Int)
    (s : JobCreate) (tok : String) (now : Nat)
    (hm : s.model_type = "rnn") (hexp : s.experiment_id ∈ exps)
    (htok : ∀ j ∈ σ, j.job_id ≠ tok) :
    findDuplicateJob σ s = none ∧
    createJob σ exps s tok now =
      Except.ok (freshJob s tok now, σ ++ [freshJob s tok now],
        some ⟨tok, s.model_type, s.parameters.dict⟩) ∧
    (freshJob s tok now).job_id = tok ∧
    freshJob s tok now ∉ σ := by
  have h1 : s.model_type ≠ "mlp" := by rw [hm]; decide
  have h2 : s.model_type ≠ "cnn" := by rw [hm]; decide
  have hfd := findDuplicateJob_none_of_other σ s h1 h2
  refine ⟨hfd, createJob_new σ exps s tok now hexp hfd, rfl, ?_⟩
  intro hmem
  exact htok _ hmem rfl

/-- Witness for C5: resubmitting the sample cnn job as an rnn job against
a store already holding it still creates a fresh row. -/
theorem rnn_submission_never_duplicate_witness :
    rnnReq.model_type = "rnn" ∧
    (findDuplicateJob [jobA] rnnReq = none ∧
     createJob [jobA] [1] rnnReq "tok9" 5 =
       Except.ok (freshJob rnnReq "tok9" 5, [jobA] ++ [freshJob rnnReq "tok9" 5],
         some ⟨"tok9", rnnReq.model_type, rnnReq.parameters.dict⟩) ∧
     (freshJob rnnReq "tok9" 5).job_id = "tok9" ∧
     freshJob rnnReq "tok9" 5 ∉ [jobA]) :=
  ⟨rfl, rnn_submission_never_duplicate [jobA] [1] rnnReq "tok9" 5 rfl
    (by decide) (by decide)⟩

/-- C4 counterexample: a submission whose model kind `"transformer"` lies
outside the closed enumeration is not rejected — `create_job` persists a
pending Job and launches an Execution Unit for it (no validation exists on
the submit path), refuting rejection-before-persistence. -/
theorem invalid_model_kind_accepted_cex :
    createModelOk transformerReq.model_type = false ∧
    createJob [] [1] transformerReq "tok9" 0 =
      Except.ok (freshJob transformerReq "tok9" 0,
        [freshJob transformerReq "tok9" 0],
        some ⟨"tok9", "transformer", transformerReq.parameters.dict⟩) ∧
    (freshJob transformerReq "tok9" 0).status = "pending" := by decide

/-- C4 amended: no model-kind validation exists on the submit path — a
submission whose kind is not one of the exact strings `"mlp"`/`"cnn"`
(which includes every kind outside the claimed enumeration, and also
aliases such as `"nn"` or case variants) is accepted: a pending Job is
persisted and an Execution Unit launched, never a ValidationError.  Only
when the kind is one `create_model` really rejects (its lower-casing not
among cnn, nn, mlp, rnn) does the Execution Unit raise, and the
synthesized failure event then marks the job failed in the background
(with `completed_at` set); an accepted alias like `"nn"` instead trains
normally. -/
theorem invalid_model_kind_fails_in_background (σ : Store) (exps : List Int)
    (s : JobCreate) (tok : String) (now : Nat) (m : String) (now2 : Nat)
    (h1 : s.model_type ≠ "mlp") (h2 : s.model_type ≠ "cnn")
    (hexp : s.experiment_id ∈ exps)
    (htok : ∀ j ∈ σ, j.job_id ≠ tok) :
    createJob σ exps s tok now =
      Except.ok (freshJob s tok now, σ ++ [freshJob s tok now],
        some ⟨tok, s.model_type, s.parameters.dict⟩) ∧
    (freshJob s tok now).status = "pending" ∧
    (createModelOk s.model_type = false →
      ∃ j2, lookupJob (runTrainingJob (σ ++ [freshJob s tok now]) tok
          ⟨[], some m⟩ now2) tok = some j2 ∧
        j2.status = "failed" ∧ j2.completed_at = some now2) := by
  have hfd := findDuplicateJob_none_of_other σ s h1 h2
  refine ⟨createJob_new σ exps s tok now hexp hfd, rfl, ?_⟩
  intro _
  have hnone := lookupJob_none σ tok htok
  have hlook : lookupJob (σ ++ [freshJob s tok now]) tok =
      some (freshJob s tok now) :=
    lookupJob_append_last σ _ tok hnone rfl
  unfold runTrainingJob
  simp only [hlook]
  rw [List.foldl_nil]
  have hσ1 : lookupJob (updateFirstJob (σ ++ [freshJob s tok now]) tok
      (fun j => { j with status := "running", started_at := some now2 })) tok =
      some { freshJob s tok now with
              status := "running", started_at := some now2 } := by
    rw [lookupJob_updateFirstJob_self (σ ++ [freshJob s tok now]) tok
      (fun j => { j with status := "running", started_at := some now2 })
      (fun x => rfl), hlook]
    rfl
  have hfin := lookupJob_updateJobInDb_self
    (updateFirstJob (σ ++ [freshJob s tok now]) tok
      (fun j => { j with status := "running", started_at := some now2 }))
    (syntheticFailure tok m) now2
  rw [show (syntheticFailure tok m).job_id = tok from rfl, hσ1] at hfin
  refine ⟨_, hfin, ?_, ?_⟩
  · exact (applyEvent_failed (syntheticFailure tok m) now2 _ rfl).1
  · exact (applyEvent_failed (syntheticFailure tok m) now2 _ rfl).2

/-- Witness for the amended C4 theorem at the transformer submission,
whose kind `create_model` rejects, so the failure clause fires. -/
theorem invalid_model_kind_fails_in_background_witness :
    transformerReq.model_type ≠ "mlp" ∧ transformerReq.model_type ≠ "cnn" ∧
    createModelOk transformerReq.model_type = false ∧
    (createJob [] [1] transformerReq "tok9" 0 =
      Except.ok (freshJob transformerReq "tok9" 0,
        [] ++ [freshJob transformerReq "tok9" 0],
        some ⟨"tok9", transformerReq.model_type, transformerReq.parameters.dict⟩) ∧
    (freshJob transformerReq "tok9" 0).status = "pending" ∧
    ∃ j2, lookupJob (runTrainingJob ([] ++ [freshJob transformerReq "tok9" 0])
        "tok9" ⟨[], some "boom"⟩ 3) "tok9" = some j2 ∧
      j2.status = "failed" ∧ j2.completed_at = some 3) :=
  ⟨by decide, by decide, by decide,
    have h := invalid_model_kind_fails_in_background [] [1] transformerReq
      "tok9" 0 "boom" 3 (by decide) (by decide) (by decide) (by decide)
    ⟨h.1, h.2.1, h.2.2 (by decide)⟩⟩

/-- C9: duplicate detection never inspects status — when the first
matching candidate for a submission is a Job in a terminal state, the
submission returns that terminal Job with the store unchanged and no
Execution Unit launched, so an identical resubmission never re-runs a
failed or cancelled job. -/
theorem duplicate_detection_ignores_status (σa σb : Store) (exps : List Int)
    (s : JobCreate) (e : Job) (tok : String) (now : Nat)
    (hexp : s.experiment_id ∈ exps)
    (hterm : e.status = "completed" ∨ e.status = "failed" ∨
      e.status = "cancelled")
    (hcand : candPred s e = true) (hdup : dupPred s e = true)
    (hfirst : ∀ x ∈ σa, candPred s x = true → dupPred s x = false) :
    createJob (σa ++ e :: σb) exps s tok now =
      Except.ok (e, σa ++ e :: σb, none) := by
  have hnone : (List.filter (candPred s) σa).find? (dupPred s) = none := by
    apply List.find?_eq_none.mpr
    intro x hx
    have hm := List.mem_filter.mp hx
    rw [hfirst x hm.1 hm.2]
    simp
  have hfd : findDuplicateJob (σa ++ e :: σb) s = some e := by
    unfold findDuplicateJob
    rw [List.filter_append, find?_append_of_none hnone]
    simp only [List.filter_cons, hcand, if_true]
    simp [List.find?, hdup]
  exact createJob_dup (σa ++ e :: σb) exps s tok now e hexp hfd

/-- C3: a second submission to an existing experiment with the same model
kind and equal core and model-kind-specific parameter values returns the
very Job the first submission returned (same token), leaves the store
unchanged, and launches no second Execution Unit. -/
theorem duplicate_submission_idempotent (σ σ1 : Store) (exps : List Int)
    (s1 s2 : JobCreate) (tok1 tok2 : String) (now1 now2 : Nat)
    (j1 : Job) (l1 : Option LaunchTask)
    (hmodel : s1.model_type = "mlp" ∨ s1.model_type = "cnn")
    (heid : s2.experiment_id = s1.experiment_id)
    (hmt : s2.model_type = s1.model_type)
    (hopt : s2.parameters.optimizer = s1.parameters.optimizer)
    (hlr : s2.parameters.learning_rate = s1.parameters.learning_rate)
    (hbs : s2.parameters.batch_size = s1.parameters.batch_size)
    (hep : s2.parameters.epochs = s1.parameters.epochs)
    (hhs : s1.model_type = "mlp" →
      s2.parameters.hidden_size = s1.parameters.hidden_size)
    (hdr : s1.model_type = "mlp" →
      s2.parameters.dropout_rate = s1.parameters.dropout_rate)
    (hnl : s1.model_type = "mlp" →
      s2.parameters.num_layers = s1.parameters.num_layers)
    (hks : s1.model_type = "cnn" →
      s2.parameters.kernel_size = s1.parameters.kernel_size)
    (h1 : createJob σ exps s1 tok1 now1 = Except.ok (j1, σ1, l1)) :
    createJob σ1 exps s2 tok2 now2 = Except.ok (j1, σ1, none) := by
  have hcc := candPred_congr_of_eq s1 s2 heid hmt
  have hdd := dupPred_congr_of_eq s1 s2 hmt hopt hlr hbs hep hhs hdr hnl hks
  unfold createJob at h1
  by_cases hexp : s1.experiment_id ∈ exps
  case neg =>
    rw [if_neg hexp] at h1
    exact absurd h1 (by simp)
  rw [if_pos hexp] at h1
  have hexp2 : s2.experiment_id ∈ exps := by
    rw [heid]
    exact hexp
  cases hfd : findDuplicateJob σ s1 with
  | some e =>
    simp only [hfd] at h1
    simp only [Except.ok.injEq, Prod.mk.injEq] at h1
    obtain ⟨he, hσ, hl⟩ := h1
    subst he hσ
    have hfd2 : findDuplicateJob σ s2 = some e := by
      rw [findDuplicateJob_congr σ s1 s2 hcc hdd, hfd]
    exact createJob_dup σ exps s2 tok2 now2 e hexp2 hfd2
  | none =>
    simp only [hfd] at h1
    simp only [Except.ok.injEq, Prod.mk.injEq] at h1
    obtain ⟨hj, hσ, hl⟩ := h1
    subst hj hσ
    have hfd2 : findDuplicateJob (σ ++ [freshJob s1 tok1 now1]) s2 =
        some (freshJob s1 tok1 now1) := by
      rw [findDuplicateJob_congr (σ ++ [freshJob s1 tok1 now1]) s1 s2 hcc hdd]
      unfold findDuplicateJob
      rw [List.filter_append]
      have hnone : (List.filter (candPred s1) σ).find? (dupPred s1) = none := hfd
      rw [find?_append_of_none hnone]
      have hc := candPred_fresh s1 tok1 now1
      have hd := dupPred_fresh s1 hmodel tok1 now1
      simp only [List.filter_cons, hc, if_true, List.filter_nil]
      simp [List.find?, hd]
    exact createJob_dup (σ ++ [freshJob s1 tok1 now1]) exps s2 tok2 now2
      (freshJob s1 tok1 now1) hexp2 hfd2

/-- Witness for C3: the sample cnn submission resubmitted identically
returns the first submission's job, with the store unchanged and no second
launch. -/
theorem duplicate_submission_idempotent_witness :
    (sampleReq.model_type = "mlp" ∨ sampleReq.model_type = "cnn") ∧
    createJob [] [1] sampleReq "tok1" 0 =
      Except.ok (freshJob sampleReq "tok1" 0, [] ++ [freshJob sampleReq "tok1" 0],
        some ⟨"tok1", sampleReq.model_type, sampleReq.parameters.dict⟩) ∧
    createJob ([] ++ [freshJob sampleReq "tok1" 0]) [1] sampleReq "tok2" 5 =
      Except.ok (freshJob sampleReq "tok1" 0,
        [] ++ [freshJob sampleReq "tok1" 0], none) :=
  ⟨Or.inr rfl, by decide,
    duplicate_submission_idempotent [] ([] ++ [freshJob sampleReq "tok1" 0])
      [1] sampleReq sampleReq "tok1" "tok2" 0 5 (freshJob sampleReq "tok1" 0)
      (some ⟨"tok1", sampleReq.model_type, sampleReq.parameters.dict⟩)
      (Or.inr rfl) rfl rfl rfl rfl rfl rfl (fun _ => rfl) (fun _ => rfl)
      (fun _ => rfl) (fun _ => rfl) (by decide)⟩

/-- Witness for C9: the failed sample job is returned untouched by an
identical resubmission, with no launch. -/
theorem duplicate_detection_ignores_status_witness :
    (failedJob.status = "completed" ∨ failedJob.status = "failed" ∨
      failedJob.status = "cancelled") ∧
    candPred sampleReq failedJob = true ∧
    dupPred sampleReq failedJob = true ∧
    createJob ([] ++ failedJob :: []) [1] sampleReq "tok9" 5 =
      Except.ok (failedJob, [] ++ failedJob :: [], none) :=
  ⟨by decide, by decide, by decide,
    duplicate_detection_ignores_status [] [] [1] sampleReq failedJob "tok9" 5
      (by decide) (by decide) (by decide) (by decide)
      (fun x hx => (List.not_mem_nil x hx).elim)⟩

/-- C7: when the trainable unit raises (the Execution Unit synthesizes the
failure event itself) or reports an error through a terminal failed event,
processing the run sets the Job's status to the terminal state failed and
stamps `completed_at`, while the result fields best_accuracy, total_time
and history keep their pre-run values. -/
theorem failed_run_terminal_and_frame (σ : Store) (t : String) (j : Job)
    (evs : List Event) (outcome : TrainOutcome) (now : Nat)
    (hjob : lookupJob σ t = some j)
    (hpre : ∀ e ∈ evs, e.job_id = t →
      ¬(e.status = some "completed" ∧ e.final_results.isSome = true))
    (hfail : (∃ m, outcome = ⟨evs, some m⟩) ∨
      (∃ fe, outcome = ⟨evs ++ [fe], none⟩ ∧ fe.job_id = t ∧
        fe.status = some "failed")) :
    ∃ j2, lookupJob (runTrainingJob σ t outcome now) t = some j2 ∧
      j2.status = "failed" ∧ j2.completed_at = some now ∧
      j2.best_accuracy = j.best_accuracy ∧ j2.total_time = j.total_time ∧
      j2.history = j.history := by
  have hσ1 : lookupJob (updateFirstJob σ t
      (fun x => { x with status := "running", started_at := some now })) t =
      some { j with status := "running", started_at := some now } := by
    rw [lookupJob_updateFirstJob_self σ t
      (fun x => { x with status := "running", started_at := some now })
      (fun x => rfl), hjob]
    rfl
  rcases hfail with ⟨m, rfl⟩ | ⟨fe, rfl, hfe1, hfe2⟩
  · have hred : runTrainingJob σ t ⟨evs, some m⟩ now =
        updateJobInDb (evs.foldl (fun s e => updateJobInDb s e now)
          (updateFirstJob σ t
            (fun x => { x with status := "running", started_at := some now })))
          (syntheticFailure t m) now := by
      unfold runTrainingJob
      simp only [hjob]
    rw [hred]
    obtain ⟨j2, hj2, hst, hca, hb, ht2, hh⟩ := process_events_then_failure
      (updateFirstJob σ t
        (fun x => { x with status := "running", started_at := some now })) t
      { j with status := "running", started_at := some now } evs
      (syntheticFailure t m) now hσ1 hpre rfl rfl
    exact ⟨j2, hj2, hst, hca, hb, ht2, hh⟩
  · have hred : runTrainingJob σ t ⟨evs ++ [fe], none⟩ now =
        updateJobInDb (evs.foldl (fun s e => updateJobInDb s e now)
          (updateFirstJob σ t
            (fun x => { x with status := "running", started_at := some now })))
          fe now := by
      unfold runTrainingJob
      simp only [hjob]
      rw [List.foldl_append, List.foldl_cons, List.foldl_nil]
    rw [hred]
    obtain ⟨j2, hj2, hst, hca, hb, ht2, hh⟩ := process_events_then_failure
      (updateFirstJob σ t
        (fun x => { x with status := "running", started_at := some now })) t
      { j with status := "running", started_at := some now } evs fe now
      hσ1 hpre hfe1 hfe2
    exact ⟨j2, hj2, hst, hca, hb, ht2, hh⟩

/-- Witness for C7: an uncaught exception in the run of the sample job
with pre-existing result values marks it failed and leaves those values
untouched. -/
theorem failed_run_terminal_and_frame_witness :
    lookupJob [resultJob] "tok1" = some resultJob ∧
    ∃ j2, lookupJob (runTrainingJob [resultJob] "tok1" ⟨[], some "boom"⟩ 9)
        "tok1" = some j2 ∧
      j2.status = "failed" ∧ j2.completed_at = some 9 ∧
      j2.best_accuracy = resultJob.best_accuracy ∧
      j2.total_time = resultJob.total_time ∧ j2.history = resultJob.history :=
  ⟨by decide,
    failed_run_terminal_and_frame [resultJob] "tok1" resultJob []
      ⟨[], some "boom"⟩ 9 (by decide)
      (fun e he => (List.not_mem_nil e he).elim)
      (Or.inl ⟨"boom", rfl⟩)⟩

/-- C8: a broadcast delivers the payload to every registered connection
whose send succeeds — failures on other connections do not block it — and
afterwards exactly the connections whose send failed are removed from the
registry while the successful ones remain registered. -/
theorem broadcast_isolates_failures (jobId : String) (data : Event)
    (reg : Registry) (hnodup : (reg.map Prod.fst).Nodup) :
    (∀ cid c, (cid, c) ∈ reg → c.ok = true →
      (cid, { c with inbox := c.inbox ++ [(jobId, data)] }) ∈
        sendWsUpdate jobId data reg) ∧
    (∀ cid c, (cid, c) ∈ reg → c.ok = false →
      ∀ c2, (cid, c2) ∉ sendWsUpdate jobId data reg) := by
  constructor
  · intro cid c hmem hok
    simp only [sendWsUpdate]
    apply List.mem_filter.mpr
    refine ⟨List.mem_map.mpr ⟨(cid, c), hmem, by simp [hok]⟩, ?_⟩
    apply decide_eq_true
    intro hcid
    obtain ⟨p, hp, hpfst⟩ := List.mem_map.mp hcid
    obtain ⟨p1, p2⟩ := p
    have hpf := List.mem_filter.mp hp
    have hp1 : p1 = cid := hpfst
    rw [hp1] at hpf
    have hsame : p2 = c := nodup_keys_unique hnodup hpf.1 hmem
    rw [hsame, hok] at hpf
    exact absurd hpf.2 (by decide)
  · intro cid c hmem hns c2 hin
    simp only [sendWsUpdate] at hin
    have hf := List.mem_filter.mp hin
    apply of_decide_eq_true hf.2
    apply List.mem_map.mpr
    refine ⟨(cid, c), List.mem_filter.mpr ⟨hmem, ?_⟩, rfl⟩
    simp [hns]

/-- Witness for C8 at a three-connection registry with one failing
member: the first healthy connection receives the payload and the failing
one is no longer registered. -/
theorem broadcast_isolates_failures_witness :
    (([("a", connA), ("b", connB), ("c", connA)].map Prod.fst).Nodup) ∧
    ("a", { connA with inbox := connA.inbox ++ [("tok1", pingEvent)] }) ∈
      sendWsUpdate "tok1" pingEvent
        [("a", connA), ("b", connB), ("c", connA)] ∧
    ("b", connB) ∉ sendWsUpdate "tok1" pingEvent
        [("a", connA), ("b", connB), ("c", connA)] :=
  ⟨by decide,
    (broadcast_isolates_failures "tok1" pingEvent
      [("a", connA), ("b", connB), ("c", connA)] (by decide)).1 "a" connA
      (by decide) rfl,
    (broadcast_isolates_failures "tok1" pingEvent
      [("a", connA), ("b", connB), ("c", connA)] (by decide)).2 "b" connB
      (by decide) rfl connB⟩

end ExperimentTracker
